import Mathlib

/-!
Shallow embedding of `backend/monitoring_service.py` (class `MonitoringService`).

Python dictionaries/objects are modelled by structures whose fields are
`Option`-typed where the source probes them defensively:
  * `Option α` for a `dict.get`/`getattr` access with a default,
  * `Option (Option α)` where the source distinguishes an absent attribute
    (`hasattr` false / `getattr` default) from an attribute whose value is
    `None` (outer `none` = attribute absent, `some none` = value is `None`).
Python truthiness of a string is `s ≠ ""`, of an `int` is `v ≠ 0`, of a list
is non-emptiness.

The two external collaborators — the tiktoken tokenizer and the HTTP
transport — are parameters of the model: a `Tokenizer` whose `encode` may
fail (the source wraps it in `try/except`), and a `net : Payload → HttpOutcome`
function giving the outcome of the single POST that
`send_evaluation_data` performs.
-/

namespace MonitoringService

/-- One element of a `content` list in a message ("multimodal" part).
In Python a part is either a dict — probed with `part.get("type")` and
`part.get("text", "")` — or some non-dict value, which the source ignores. -/
inductive Part where
  | dict (type? : Option String) (text? : Option String)
  | nondict
deriving DecidableEq, Repr

/-- The `content` value of a message: a plain string, a list of parts, or
any other Python value (e.g. `None`), for which the source's
`isinstance` checks both fail. -/
inductive Content where
  | str (s : String)
  | list (parts : List Part)
  | other
deriving DecidableEq, Repr

/-- A chat message dict. `role` is `message.get("role")` (`none` when the key
is absent or holds a non-string that can never equal `"user"`). `content` is
the value under the `"content"` key; `none` means the key is absent, in which
case `message.get("content", "")` yields the default `""`. -/
structure Message where
  role : Option String
  content : Option Content
deriving DecidableEq, Repr

/-- `choice.message` object: `content` is `Option (Option String)` —
`none` = no `content` attribute, `some none` = `content` is `None`
(then `content or ""` yields `""`), `some (some s)` = a string. -/
structure ChoiceMessage where
  content : Option (Option String)
deriving DecidableEq, Repr

/-- One element of `response.choices`; `message` is `none` when the choice has
no usable `message` attribute (absent, or `None` so that
`hasattr(choice.message, 'content')` is false). -/
structure Choice where
  message : Option ChoiceMessage
deriving DecidableEq, Repr

/-- The `usage` object. Each field models `getattr`: `none` = attribute
absent (the `getattr` default applies); `some v` = attribute holds the
integer `v`. Python ints are unbounded and signed, hence `Int`. -/
structure Usage where
  prompt_tokens : Option Int
  completion_tokens : Option Int
  input_tokens : Option Int
  output_tokens : Option Int
  total_tokens : Option Int
deriving DecidableEq, Repr

/-- The OpenAI response object. `choices`/`usage`: outer `none` = attribute
absent (`hasattr` false), `some none` = attribute is `None` (falsy),
`some (some v)` = a real value. -/
structure OpenAIResponse where
  choices : Option (Option (List Choice))
  usage : Option (Option Usage)
deriving DecidableEq, Repr

/-- The `Dict[str, int]` returned by `extract_token_usage`. -/
structure TokenData where
  input_tokens : Int
  output_tokens : Int
  total_tokens : Int
deriving DecidableEq, Repr

/-- The external tokenizer (tiktoken). `encode` returns the token list, or an
error when `TOKENIZER.encode(text, ...)` raises. -/
structure Tokenizer where
  encode : String → Except String (List Nat)

/-- The outbound `evaluation_data` payload built by
`capture_and_send_monitoring_data` (step "Prepare evaluation data"). -/
structure Payload where
  session_id : String
  input_text : String
  output_text : String
  model : String
  llm_latency : Int
  api_latency : Int
  input_tokens : Int
  output_tokens : Int
  total_tokens : Int
deriving DecidableEq, Repr

/-- Outcome of the single HTTP POST performed inside
`send_evaluation_data`: a response with a status code and body text, an
`httpx.TimeoutException`, or any other transport exception. -/
inductive HttpOutcome where
  | response (status : Nat) (text : String)
  | timeout
  | transportError (msg : String)
deriving DecidableEq, Repr

/-- `send_evaluation_data(evaluation_data)`: performs one POST (whose outcome
is the `outcome` argument) and returns `True` iff
`response.status_code in [200, 202]`; a timeout or any other exception is
caught and yields `False`. -/
def send_evaluation_data (_evaluation_data : Payload) (outcome : HttpOutcome) : Bool :=
  match outcome with
  | HttpOutcome.response status _ => status = 200 || status = 202
  | HttpOutcome.timeout => false
  | HttpOutcome.transportError _ => false

/-- The body of the part-collection loop in `extract_user_input`: a dict part
with `part.get("type") == "text"` contributes `part.get("text", "")`;
anything else is skipped. -/
def partText : Part → Option String
  | Part.dict type? text? => if type? = some "text" then some (text?.getD "") else none
  | Part.nondict => none

/-- The loop of `extract_user_input` over `reversed(messages)`: the first
entry with `role == "user"` whose content is a string is returned verbatim;
list content yields `" ".join(text_parts)`; any other content shape has no
`return`, so the loop continues with earlier messages. -/
def findUserInput : List Message → String
  | [] => ""
  | m :: rest =>
    if m.role = some "user" then
      match m.content.getD (Content.str "") with
      | Content.str s => s
      | Content.list parts => String.intercalate " " (parts.filterMap partText)
      | Content.other => findUserInput rest
    else findUserInput rest

/-- `extract_user_input(messages)`: scans `reversed(messages)` for the last
user message and renders its content. -/
def extract_user_input (messages : List Message) : String :=
  findUserInput messages.reverse

/-- `extract_assistant_output(openai_response)`: returns
`choices[0].message.content or ""` when `choices` is present and truthy and
the nested attributes exist; `""` otherwise. -/
def extract_assistant_output (openai_response : OpenAIResponse) : String :=
  match openai_response.choices with
  | some (some (choice :: _)) =>
    match choice.message with
    | some msg =>
      match msg.content with
      | some (some s) => s
      | some none => ""
      | none => ""
    | none => ""
  | _ => ""

/-- Python `a or b` on `getattr(usage, name, None)` results: `None` and `0`
are falsy, so both fall through to `b`. -/
def pyOrInt (a : Option Int) (b : Int) : Int :=
  match a with
  | none => b
  | some v => if v = 0 then b else v

/-- `extract_token_usage(openai_response)`: when `usage` is present and
truthy, reads
`getattr(usage,'prompt_tokens',None) or getattr(usage,'input_tokens',0)`
(and the analogous completion/output pair) and
`getattr(usage,'total_tokens',0)`; otherwise returns the all-zero
`default_tokens`. -/
def extract_token_usage (openai_response : OpenAIResponse) : TokenData :=
  match openai_response.usage with
  | some (some usage) =>
    { input_tokens := pyOrInt usage.prompt_tokens (usage.input_tokens.getD 0)
      output_tokens := pyOrInt usage.completion_tokens (usage.output_tokens.getD 0)
      total_tokens := usage.total_tokens.getD 0 }
  | _ => { input_tokens := 0, output_tokens := 0, total_tokens := 0 }

/-- `estimate_tokens_fallback(text)`: with no tokenizer available, or empty
text, returns `max(1, len(text) // 4)`; otherwise the length of
`TOKENIZER.encode(text, allowed_special="all")`, falling back to the same
character heuristic when encoding raises. -/
def estimate_tokens_fallback (tokenizer? : Option Tokenizer) (text : String) : Nat :=
  match tokenizer? with
  | none => max 1 (text.length / 4)
  | some tokenizer =>
    if text = "" then max 1 (text.length / 4)
    else
      match tokenizer.encode text with
      | Except.ok tokens => tokens.length
      | Except.error _ => max 1 (text.length / 4)

/-- Steps 1–5 of `capture_and_send_monitoring_data`: session id
(`conversation_id or str(uuid.uuid4())`, `freshId` standing for the
generated UUID), extraction, the fallback-estimation override when the
provider total is zero and some text is non-empty, and assembly of
`evaluation_data`. -/
def build_evaluation_data (tokenizer? : Option Tokenizer) (freshId : String)
    (openai_response : OpenAIResponse) (messages : List Message)
    (conversation_id : Option String) : Payload :=
  let session_id :=
    match conversation_id with
    | some c => if c = "" then freshId else c
    | none => freshId
  let input_text := extract_user_input messages
  let output_text := extract_assistant_output openai_response
  let token_data := extract_token_usage openai_response
  let token_data :=
    if token_data.total_tokens = 0 ∧ (input_text ≠ "" ∨ output_text ≠ "") then
      let input_tokens : Int :=
        if input_text ≠ "" then (estimate_tokens_fallback tokenizer? input_text : Int) else 0
      let output_tokens : Int :=
        if output_text ≠ "" then (estimate_tokens_fallback tokenizer? output_text : Int) else 0
      { input_tokens := input_tokens
        output_tokens := output_tokens
        total_tokens := input_tokens + output_tokens }
    else token_data
  { session_id := session_id
    input_text := input_text
    output_text := output_text
    model := "gpt-4.1-mini"
    llm_latency := 0
    api_latency := 0
    input_tokens := token_data.input_tokens
    output_tokens := token_data.output_tokens
    total_tokens := token_data.total_tokens }

/-- `capture_and_send_monitoring_data(openai_response, messages,
conversation_id)`: builds `evaluation_data` and returns the boolean result
of `send_evaluation_data` on it; the whole body sits in a `try/except` that
converts any exception into `False` (in this total embedding every
sub-step is itself total, so the catch-all is never reached). -/
def capture_and_send_monitoring_data (tokenizer? : Option Tokenizer)
    (net : Payload → HttpOutcome) (freshId : String)
    (openai_response : OpenAIResponse) (messages : List Message)
    (conversation_id : Option String) : Bool :=
  let evaluation_data :=
    build_evaluation_data tokenizer? freshId openai_response messages conversation_id
  send_evaluation_data evaluation_data (net evaluation_data)

/-- Well-behavedness of the external tokenizer, true of the actual tiktoken
gpt2 BPE: encoding a non-empty string never yields an empty token list
(every byte is covered by some token). Trivially true when no tokenizer is
available. -/
def TokenizerSound : Option Tokenizer → Prop
  | none => True
  | some tokenizer =>
    ∀ s, s ≠ "" → ∀ tokens, tokenizer.encode s = Except.ok tokens → tokens ≠ []

/-- Spec-side predicate: a part "tagged with type text" (a dict whose
`type` entry is the string `"text"`). Used to state the claims, written
from the spec's words, not from the loop body. -/
def isTextPart : Part → Bool
  | Part.dict type? _ => type? = some "text"
  | Part.nondict => false

/-- Spec-side reading of "the text of" a part: its `text` entry, empty when
missing. -/
def partTextValue : Part → String
  | Part.dict _ text? => text?.getD ""
  | Part.nondict => ""

/-- Spec-side rendering of a user message's content as the source produces
it: a plain string verbatim; a part list as the space-joined text parts;
`none` for any other content shape, for which the source returns nothing
and keeps scanning earlier messages. -/
def renderContent : Content → Option String
  | Content.str s => some s
  | Content.list parts => some (String.intercalate " " (parts.filterMap partText))
  | Content.other => none

/-- A response with no `choices` and no `usage` attribute. -/
def bareResponse : OpenAIResponse := { choices := none, usage := none }

/-- A usage object carrying zero `total_tokens` but a nonzero
`prompt_tokens`, as a provider could supply. -/
def zeroTotalUsage : Usage :=
  { prompt_tokens := some 5, completion_tokens := none,
    input_tokens := none, output_tokens := none, total_tokens := none }

/-- Response wrapping `zeroTotalUsage`. -/
def zeroTotalResponse : OpenAIResponse :=
  { choices := none, usage := some (some zeroTotalUsage) }

/-- A usage object on which both naming conventions are present, the first
convention (`prompt_tokens`/`completion_tokens`) holding zeros. -/
def bothConventionsUsage : Usage :=
  { prompt_tokens := some 0, completion_tokens := some 0,
    input_tokens := some 7, output_tokens := some 9, total_tokens := some 16 }

/-- Response wrapping `bothConventionsUsage`. -/
def bothConventionsResponse : OpenAIResponse :=
  { choices := none, usage := some (some bothConventionsUsage) }

/-- A usage object in which both conventions are present and the first
convention holds nonzero values. -/
def nonzeroFirstUsage : Usage :=
  { prompt_tokens := some 3, completion_tokens := some 4,
    input_tokens := some 7, output_tokens := some 9, total_tokens := some 7 }

/-- Response wrapping `nonzeroFirstUsage`. -/
def nonzeroFirstResponse : OpenAIResponse :=
  { choices := none, usage := some (some nonzeroFirstUsage) }

/-- A usage object with negative token counts and a nonzero total, as a
provider could supply. -/
def negativeUsage : Usage :=
  { prompt_tokens := some (-5), completion_tokens := some (-3),
    input_tokens := none, output_tokens := none, total_tokens := some (-10) }

/-- Response wrapping `negativeUsage`. -/
def negativeResponse : OpenAIResponse :=
  { choices := none, usage := some (some negativeUsage) }

/-- A user message whose `content` key holds `None` (neither a string nor
a list), so that the scan in `extract_user_input` skips it. -/
def userNullContent : Message := { role := some "user", content := some Content.other }

/-- A user message with plain string content. -/
def userMsg (s : String) : Message := { role := some "user", content := some (Content.str s) }

/-- An assistant message with plain string content. -/
def assistantMsg (s : String) : Message :=
  { role := some "assistant", content := some (Content.str s) }

/-- The scan of `extract_user_input` skips a message whose role is not
`"user"`. -/
theorem findUserInput_cons_of_not_user (m : Message) (rest : List Message)
    (h : ¬ m.role = some "user") : findUserInput (m :: rest) = findUserInput rest := by
  simp [findUserInput, h]

/-- The scan of `extract_user_input` skips any leading block of non-user
messages. -/
theorem findUserInput_append_of_no_user (xs ys : List Message)
    (h : ∀ m ∈ xs, ¬ m.role = some "user") :
    findUserInput (xs ++ ys) = findUserInput ys := by
  induction xs with
  | nil => rfl
  | cons m rest ih =>
    rw [List.cons_append, findUserInput_cons_of_not_user m _ (h m (by simp)),
      ih (fun m' hm' => h m' (by simp [hm']))]

/-- With a well-behaved tokenizer (or none at all), the fallback estimate of
a non-empty text is at least 1. -/
theorem one_le_estimate_tokens_fallback (tokenizer? : Option Tokenizer) (text : String)
    (hsound : TokenizerSound tokenizer?) (hne : text ≠ "") :
    1 ≤ estimate_tokens_fallback tokenizer? text := by
  cases tokenizer? with
  | none => exact Nat.le_max_left 1 _
  | some tokenizer =>
    simp only [estimate_tokens_fallback, if_neg hne]
    cases h : tokenizer.encode text with
    | ok tokens =>
      have hne2 := hsound text hne tokens h
      cases tokens with
      | nil => exact absurd rfl hne2
      | cons a l => simp
    | error e => exact Nat.le_max_left 1 _

/-- The loop's accumulated `text_parts` are exactly the text values of the
parts tagged with type `"text"`, in order. -/
theorem filterMap_partText_eq (parts : List Part) :
    parts.filterMap partText = (parts.filter (fun p => isTextPart p)).map partTextValue := by
  induction parts with
  | nil => rfl
  | cons p ps ih =>
    cases p with
    | dict t? x? =>
      by_cases h : t? = some "text" <;>
        simp [partText, isTextPart, partTextValue, h, List.filterMap_cons, List.filter_cons, ih]
    | nondict => simp [partText, isTextPart, List.filterMap_cons, List.filter_cons, ih]

/-- **C1.** For every tokenizer, transport behaviour, generated id, response
object — malformed shapes included: `usage` absent, `choices` empty or
`None`, null message content — message list and optional conversation id,
`capture_and_send_monitoring_data` returns a boolean (`true` or `false`),
namely the verdict of `send_evaluation_data` on the payload it built. Every
step of the embedding is a total function, mirroring the source's
catch-all `try/except` that converts any exception into `False`: no
exception propagates to the caller. -/
theorem capture_and_send_monitoring_data_never_raises (tokenizer? : Option Tokenizer)
    (net : Payload → HttpOutcome) (freshId : String)
    (openai_response : OpenAIResponse) (messages : List Message)
    (conversation_id : Option String) :
    (capture_and_send_monitoring_data tokenizer? net freshId openai_response messages
        conversation_id = true ∨
      capture_and_send_monitoring_data tokenizer? net freshId openai_response messages
        conversation_id = false) ∧
    capture_and_send_monitoring_data tokenizer? net freshId openai_response messages
        conversation_id =
      send_evaluation_data
        (build_evaluation_data tokenizer? freshId openai_response messages conversation_id)
        (net (build_evaluation_data tokenizer? freshId openai_response messages
          conversation_id)) := by
  refine ⟨?_, rfl⟩
  cases capture_and_send_monitoring_data tokenizer? net freshId openai_response messages
    conversation_id
  · exact Or.inr rfl
  · exact Or.inl rfl

/-- **C2.** `send_evaluation_data` returns `true` iff the single POST it
performs comes back with status 200 or 202; any other status, a timeout,
or any other transport error yields `false`. The model consumes exactly
one transport outcome, mirroring the source's single un-retried request,
and is total: it never raises. -/
theorem send_evaluation_data_success_iff (evaluation_data : Payload) (outcome : HttpOutcome) :
    (send_evaluation_data evaluation_data outcome = true ↔
      ∃ status text, outcome = HttpOutcome.response status text ∧
        (status = 200 ∨ status = 202)) ∧
    send_evaluation_data evaluation_data HttpOutcome.timeout = false ∧
    (∀ msg, send_evaluation_data evaluation_data (HttpOutcome.transportError msg) = false) := by
  refine ⟨?_, rfl, fun _ => rfl⟩
  cases outcome with
  | response status text =>
    constructor
    · intro h
      refine ⟨status, text, rfl, ?_⟩
      simpa [send_evaluation_data] using h
    · rintro ⟨s, t, heq, hs⟩
      cases heq
      simpa [send_evaluation_data] using hs
  | timeout =>
    constructor
    · intro h
      simp [send_evaluation_data] at h
    · rintro ⟨s, t, heq, hs⟩
      cases heq
  | transportError msg =>
    constructor
    · intro h
      simp [send_evaluation_data] at h
    · rintro ⟨s, t, heq, hs⟩
      cases heq

/-- **C7.** When the selected user message's content is a list of typed
parts, `extract_user_input` returns the single-space-joined text of exactly
the parts tagged with type `"text"`, in their original order, ignoring all
non-text parts — stated here with the spec-side `isTextPart` /
`partTextValue` reading, for a user message preceded by arbitrary
messages. -/
theorem extract_user_input_typed_parts (ms : List Message) (parts : List Part) :
    extract_user_input
        (ms ++ [{ role := some "user", content := some (Content.list parts) }]) =
      String.intercalate " " ((parts.filter (fun p => isTextPart p)).map partTextValue) := by
  rw [extract_user_input, List.reverse_append, List.reverse_singleton]
  show findUserInput ({ role := some "user", content := some (Content.list parts) } :: ms.reverse) = _
  simp only [findUserInput, Option.getD_some, if_true]
  rw [filterMap_partText_eq]

/-- **C10.** For every non-empty text, `estimate_tokens_fallback` returns at
least 1 (given the tokenizer, when present, is the well-behaved tiktoken
encoder), and with no tokenizer available it returns exactly
`max 1 (len(text) / 4)`. -/
theorem estimate_tokens_fallback_spec (tokenizer? : Option Tokenizer) (text : String)
    (hsound : TokenizerSound tokenizer?) (hne : text ≠ "") :
    1 ≤ estimate_tokens_fallback tokenizer? text ∧
    estimate_tokens_fallback none text = max 1 (text.length / 4) :=
  ⟨one_le_estimate_tokens_fallback tokenizer? text hsound hne, rfl⟩

/-- Witness for C10 at the concrete text `"Hello"` with no tokenizer. -/
theorem estimate_tokens_fallback_spec_witness :
    1 ≤ estimate_tokens_fallback none "Hello" ∧
    estimate_tokens_fallback none "Hello" = max 1 ("Hello".length / 4) :=
  estimate_tokens_fallback_spec none "Hello" trivial (by decide)

/-- On a user message the scan returns the rendering of its content when the
content renders, and otherwise keeps scanning. -/
theorem findUserInput_cons_user (m : Message) (rest : List Message)
    (hrole : m.role = some "user") :
    findUserInput (m :: rest) =
      match renderContent (m.content.getD (Content.str "")) with
      | some r => r
      | none => findUserInput rest := by
  simp only [findUserInput, hrole, if_true]
  cases m.content.getD (Content.str "") with
  | str s => rfl
  | list parts => rfl
  | other => rfl

/-- **C6 (amended).** A message list with no `"user"` entry yields `""`; and
when the last user entry's content is a string or a part list (so that it
renders to some string `r`), `extract_user_input` returns `r`, ignoring all
earlier user entries. A last user entry whose content has any other shape
(e.g. null) does not determine the result: the scan skips it and continues
with the earlier messages. -/
theorem extract_user_input_last_user (ms pre post : List Message) (m : Message) (r : String) :
    ((∀ m2 ∈ ms, ¬ m2.role = some "user") → extract_user_input ms = "") ∧
    (m.role = some "user" → (∀ m2 ∈ post, ¬ m2.role = some "user") →
      renderContent (m.content.getD (Content.str "")) = some r →
      extract_user_input (pre ++ m :: post) = r) ∧
    (m.role = some "user" → (∀ m2 ∈ post, ¬ m2.role = some "user") →
      renderContent (m.content.getD (Content.str "")) = none →
      extract_user_input (pre ++ m :: post) = extract_user_input pre) := by
  have hsplit : ∀ h2 : ∀ m2 ∈ post, ¬ m2.role = some "user",
      extract_user_input (pre ++ m :: post) = findUserInput (m :: pre.reverse) := by
    intro h2
    rw [extract_user_input, List.reverse_append, List.reverse_cons, List.append_assoc,
      findUserInput_append_of_no_user _ _ (fun m2 hm2 => h2 m2 (List.mem_reverse.mp hm2))]
    rfl
  refine ⟨?_, ?_, ?_⟩
  · intro h
    rw [extract_user_input, ← List.append_nil ms.reverse,
      findUserInput_append_of_no_user _ _ (fun m2 hm2 => h m2 (List.mem_reverse.mp hm2))]
    rfl
  · intro hrole hpost hr
    rw [hsplit hpost, findUserInput_cons_user m _ hrole, hr]
  · intro hrole hpost hr
    rw [hsplit hpost, findUserInput_cons_user m _ hrole, hr]
    rfl

/-- Counterexample for C6 as stated: two message lists sharing the same last
user entry (whose content is null) on which `extract_user_input` returns
different earlier contents — so the result is not the content of the last
user entry. -/
theorem extract_user_input_last_user_counterexample :
    extract_user_input [userMsg "first", userNullContent] = "first" ∧
    extract_user_input [userMsg "second", userNullContent] = "second" ∧
    ¬ extract_user_input [userMsg "first", userNullContent] =
      extract_user_input [userMsg "second", userNullContent] := by
  refine ⟨rfl, rfl, by decide⟩

/-- Witness for the amended C6 on concrete message lists. -/
theorem extract_user_input_last_user_witness :
    extract_user_input [assistantMsg "a"] = "" ∧
    extract_user_input ([userMsg "old"] ++ userMsg "new" :: [assistantMsg "rsp"]) = "new" ∧
    extract_user_input ([userMsg "old"] ++ userNullContent :: []) =
      extract_user_input [userMsg "old"] := by
  refine ⟨?_, ?_, ?_⟩
  · exact (extract_user_input_last_user [assistantMsg "a"] [] [] (userMsg "x") "").1 (by decide)
  · exact (extract_user_input_last_user [] [userMsg "old"] [assistantMsg "rsp"]
      (userMsg "new") "new").2.1 rfl (by decide) rfl
  · exact (extract_user_input_last_user [] [userMsg "old"] [] userNullContent "").2.2 rfl
      (by decide) rfl

/-- **C3.** When the provider-extracted `total_tokens` is 0 and the
extracted input text is non-empty, the payload's `input_tokens` is positive
and its `total_tokens` is the sum of its `input_tokens` and
`output_tokens` (given the tokenizer, when present, is the well-behaved
tiktoken encoder). -/
theorem build_evaluation_data_fallback_input_pos (tokenizer? : Option Tokenizer)
    (freshId : String) (openai_response : OpenAIResponse) (messages : List Message)
    (conversation_id : Option String)
    (hsound : TokenizerSound tokenizer?)
    (htotal : (extract_token_usage openai_response).total_tokens = 0)
    (hinput : extract_user_input messages ≠ "") :
    0 < (build_evaluation_data tokenizer? freshId openai_response messages
        conversation_id).input_tokens ∧
    (build_evaluation_data tokenizer? freshId openai_response messages
        conversation_id).total_tokens =
      (build_evaluation_data tokenizer? freshId openai_response messages
        conversation_id).input_tokens +
      (build_evaluation_data tokenizer? freshId openai_response messages
        conversation_id).output_tokens := by
  have hcond : (extract_token_usage openai_response).total_tokens = 0 ∧
      (extract_user_input messages ≠ "" ∨ extract_assistant_output openai_response ≠ "") :=
    ⟨htotal, Or.inl hinput⟩
  dsimp only [build_evaluation_data]
  rw [if_pos hcond]
  refine ⟨?_, rfl⟩
  show (0 : Int) < if extract_user_input messages ≠ "" then
    (estimate_tokens_fallback tokenizer? (extract_user_input messages) : Int) else 0
  rw [if_pos hinput]
  exact_mod_cast one_le_estimate_tokens_fallback tokenizer? _ hsound hinput

/-- Witness for C3: no usage data, one user message `"Hello"`, no
tokenizer. -/
theorem build_evaluation_data_fallback_input_pos_witness :
    0 < (build_evaluation_data none "sid" bareResponse [userMsg "Hello"] none).input_tokens ∧
    (build_evaluation_data none "sid" bareResponse [userMsg "Hello"] none).total_tokens =
      (build_evaluation_data none "sid" bareResponse [userMsg "Hello"] none).input_tokens +
      (build_evaluation_data none "sid" bareResponse [userMsg "Hello"] none).output_tokens :=
  build_evaluation_data_fallback_input_pos none "sid" bareResponse [userMsg "Hello"] none
    trivial (by decide) (by decide)

/-- **C4.** When the provider-extracted `total_tokens` is positive, the
extracted provider token counts appear verbatim in the payload: the fallback
estimation is not applied. -/
theorem build_evaluation_data_provider_verbatim (tokenizer? : Option Tokenizer)
    (freshId : String) (openai_response : OpenAIResponse) (messages : List Message)
    (conversation_id : Option String)
    (htotal : 0 < (extract_token_usage openai_response).total_tokens) :
    (build_evaluation_data tokenizer? freshId openai_response messages
        conversation_id).input_tokens = (extract_token_usage openai_response).input_tokens ∧
    (build_evaluation_data tokenizer? freshId openai_response messages
        conversation_id).output_tokens = (extract_token_usage openai_response).output_tokens ∧
    (build_evaluation_data tokenizer? freshId openai_response messages
        conversation_id).total_tokens = (extract_token_usage openai_response).total_tokens := by
  have hcond : ¬ ((extract_token_usage openai_response).total_tokens = 0 ∧
      (extract_user_input messages ≠ "" ∨ extract_assistant_output openai_response ≠ "")) :=
    fun h => ne_of_gt htotal h.1
  dsimp only [build_evaluation_data]
  rw [if_neg hcond]
  exact ⟨rfl, rfl, rfl⟩

/-- Witness for C4: a usage object with both conventions present and total
7. -/
theorem build_evaluation_data_provider_verbatim_witness :
    (build_evaluation_data none "sid" nonzeroFirstResponse [] none).input_tokens =
      (extract_token_usage nonzeroFirstResponse).input_tokens ∧
    (build_evaluation_data none "sid" nonzeroFirstResponse [] none).output_tokens =
      (extract_token_usage nonzeroFirstResponse).output_tokens ∧
    (build_evaluation_data none "sid" nonzeroFirstResponse [] none).total_tokens =
      (extract_token_usage nonzeroFirstResponse).total_tokens :=
  build_evaluation_data_provider_verbatim none "sid" nonzeroFirstResponse [] none (by decide)

/-- Counterexample for C5 as stated: a usage object with zero
`total_tokens` but `prompt_tokens = 5`, with both texts empty — the payload
carries `input_tokens = 5`, not all zeros. -/
theorem build_evaluation_data_zero_total_counterexample :
    (extract_token_usage zeroTotalResponse).total_tokens = 0 ∧
    extract_user_input ([] : List Message) = "" ∧
    extract_assistant_output zeroTotalResponse = "" ∧
    (build_evaluation_data none "sid" zeroTotalResponse [] none).input_tokens = 5 ∧
    ¬ (build_evaluation_data none "sid" zeroTotalResponse [] none).input_tokens = 0 := by
  decide

/-- **C5 (amended).** When the provider-extracted `total_tokens` is 0 and
both extracted texts are empty, no fallback estimation is applied: the
payload carries the extracted provider token data unchanged (total 0); in
particular it is all zeros whenever the `usage` structure is absent or
`None`, but nonzero provider per-direction counts pass through. -/
theorem build_evaluation_data_zero_total_no_fallback (tokenizer? : Option Tokenizer)
    (freshId : String) (openai_response : OpenAIResponse) (messages : List Message)
    (conversation_id : Option String)
    (htotal : (extract_token_usage openai_response).total_tokens = 0)
    (hin : extract_user_input messages = "")
    (hout : extract_assistant_output openai_response = "") :
    ((build_evaluation_data tokenizer? freshId openai_response messages
        conversation_id).input_tokens = (extract_token_usage openai_response).input_tokens ∧
     (build_evaluation_data tokenizer? freshId openai_response messages
        conversation_id).output_tokens = (extract_token_usage openai_response).output_tokens ∧
     (build_evaluation_data tokenizer? freshId openai_response messages
        conversation_id).total_tokens = 0) ∧
    (openai_response.usage = none ∨ openai_response.usage = some none →
      (build_evaluation_data tokenizer? freshId openai_response messages
          conversation_id).input_tokens = 0 ∧
      (build_evaluation_data tokenizer? freshId openai_response messages
          conversation_id).output_tokens = 0 ∧
      (build_evaluation_data tokenizer? freshId openai_response messages
          conversation_id).total_tokens = 0) := by
  have hcond : ¬ ((extract_token_usage openai_response).total_tokens = 0 ∧
      (extract_user_input messages ≠ "" ∨ extract_assistant_output openai_response ≠ "")) :=
    fun h => h.2.elim (fun h2 => h2 hin) (fun h2 => h2 hout)
  have hz : ∀ _ : openai_response.usage = none ∨ openai_response.usage = some none,
      extract_token_usage openai_response =
        { input_tokens := 0, output_tokens := 0, total_tokens := 0 } := by
    rintro (h | h) <;> simp [extract_token_usage, h]
  dsimp only [build_evaluation_data]
  rw [if_neg hcond]
  exact ⟨⟨rfl, rfl, htotal⟩,
    fun h => ⟨by rw [show (extract_token_usage openai_response).input_tokens = _ from
        congrArg TokenData.input_tokens (hz h)],
      by rw [show (extract_token_usage openai_response).output_tokens = _ from
        congrArg TokenData.output_tokens (hz h)], htotal⟩⟩

/-- Witness for the amended C5: no usage, no messages, no choices. -/
theorem build_evaluation_data_zero_total_no_fallback_witness :
    (build_evaluation_data none "sid" bareResponse [] none).input_tokens = 0 ∧
    (build_evaluation_data none "sid" bareResponse [] none).output_tokens = 0 ∧
    (build_evaluation_data none "sid" bareResponse [] none).total_tokens = 0 :=
  (build_evaluation_data_zero_total_no_fallback none "sid" bareResponse [] none
    (by decide) (by decide) (by decide)).2 (Or.inl rfl)

/-- Counterexample for C8 as stated: a usage object on which both naming
conventions are present (`prompt_tokens = 0`, `input_tokens = 7`) — the
extracted input count is 7, taken from the second convention, not from the
first. -/
theorem extract_token_usage_preference_counterexample :
    bothConventionsUsage.prompt_tokens = some 0 ∧
    bothConventionsUsage.input_tokens = some 7 ∧
    (extract_token_usage bothConventionsResponse).input_tokens = 7 ∧
    ¬ (extract_token_usage bothConventionsResponse).input_tokens = 0 ∧
    bothConventionsUsage.completion_tokens = some 0 ∧
    (extract_token_usage bothConventionsResponse).output_tokens = 9 := by
  decide

/-- **C8 (amended).** `extract_token_usage` reads the input/output counts
under either naming convention, preferring `prompt_tokens` /
`completion_tokens` only when the attribute is present with a nonzero
(truthy) value; an absent, `None` or zero first-convention value falls
through to `input_tokens` / `output_tokens` (defaulting to 0). It reads
`total_tokens` directly, and returns the all-zero record when `usage` is
absent or `None`. -/
theorem extract_token_usage_conventions (openai_response : OpenAIResponse) (usage : Usage)
    (v w : Int) :
    (openai_response.usage = some (some usage) →
      (usage.prompt_tokens = some v → ¬ v = 0 →
        (extract_token_usage openai_response).input_tokens = v) ∧
      (usage.prompt_tokens = none ∨ usage.prompt_tokens = some 0 →
        (extract_token_usage openai_response).input_tokens = usage.input_tokens.getD 0) ∧
      (usage.completion_tokens = some w → ¬ w = 0 →
        (extract_token_usage openai_response).output_tokens = w) ∧
      (usage.completion_tokens = none ∨ usage.completion_tokens = some 0 →
        (extract_token_usage openai_response).output_tokens = usage.output_tokens.getD 0) ∧
      (extract_token_usage openai_response).total_tokens = usage.total_tokens.getD 0) ∧
    (openai_response.usage = none ∨ openai_response.usage = some none →
      extract_token_usage openai_response =
        { input_tokens := 0, output_tokens := 0, total_tokens := 0 }) := by
  constructor
  · intro hu
    simp only [extract_token_usage, hu]
    refine ⟨?_, ?_, ?_, ?_, True.intro⟩
    · intro hp hv
      simp [pyOrInt, hp, hv]
    · rintro (hp | hp) <;> simp [pyOrInt, hp]
    · intro hp hv
      simp [pyOrInt, hp, hv]
    · rintro (hp | hp) <;> simp [pyOrInt, hp]
  · rintro (hu | hu) <;> simp [extract_token_usage, hu]

/-- Witness for the amended C8: the zero-valued first convention falls
through to the second, a nonzero first convention wins, and absent usage
yields the all-zero record. -/
theorem extract_token_usage_conventions_witness :
    (extract_token_usage bothConventionsResponse).input_tokens = 7 ∧
    (extract_token_usage nonzeroFirstResponse).input_tokens = 3 ∧
    extract_token_usage bareResponse =
      { input_tokens := 0, output_tokens := 0, total_tokens := 0 } := by
  refine ⟨?_, ?_, ?_⟩
  · exact (((extract_token_usage_conventions bothConventionsResponse bothConventionsUsage
      0 0).1 rfl).2.1 (Or.inr rfl)).trans rfl
  · exact (((extract_token_usage_conventions nonzeroFirstResponse nonzeroFirstUsage
      3 4).1 rfl).1 rfl (by decide)).trans rfl
  · exact (extract_token_usage_conventions bareResponse bothConventionsUsage 0 0).2
      (Or.inl rfl)

/-- Counterexample for C9 as stated: a provider usage object carrying
negative counts with a nonzero total passes through verbatim, so the payload
holds a negative `input_tokens`. -/
theorem build_evaluation_data_nonneg_counterexample :
    (build_evaluation_data none "sid" negativeResponse [] none).input_tokens = -5 ∧
    (build_evaluation_data none "sid" negativeResponse [] none).input_tokens < 0 ∧
    (build_evaluation_data none "sid" negativeResponse [] none).total_tokens = -10 := by
  decide

/-- **C9 (amended).** The token counts in the final payload are non-negative
whenever the provider-extracted token counts are non-negative — in
particular whenever `usage` is absent or whenever the fallback estimation
fires, whose estimates are non-negative by construction. A provider
supplying negative usage values passes them through. -/
theorem build_evaluation_data_nonneg (tokenizer? : Option Tokenizer)
    (freshId : String) (openai_response : OpenAIResponse) (messages : List Message)
    (conversation_id : Option String)
    (h1 : 0 ≤ (extract_token_usage openai_response).input_tokens)
    (h2 : 0 ≤ (extract_token_usage openai_response).output_tokens)
    (h3 : 0 ≤ (extract_token_usage openai_response).total_tokens) :
    0 ≤ (build_evaluation_data tokenizer? freshId openai_response messages
        conversation_id).input_tokens ∧
    0 ≤ (build_evaluation_data tokenizer? freshId openai_response messages
        conversation_id).output_tokens ∧
    0 ≤ (build_evaluation_data tokenizer? freshId openai_response messages
        conversation_id).total_tokens := by
  have hnn : ∀ (b : Prop) (inst : Decidable b) (n : Nat), 0 ≤ (if b then (n : Int) else 0) := by
    intro b inst n
    split
    · exact Int.natCast_nonneg n
    · exact le_refl 0
  by_cases hc : (extract_token_usage openai_response).total_tokens = 0 ∧
      (extract_user_input messages ≠ "" ∨ extract_assistant_output openai_response ≠ "")
  · dsimp only [build_evaluation_data]
    rw [if_pos hc]
    exact ⟨hnn _ _ _, hnn _ _ _, add_nonneg (hnn _ _ _) (hnn _ _ _)⟩
  · dsimp only [build_evaluation_data]
    rw [if_neg hc]
    exact ⟨h1, h2, h3⟩

/-- Witness for the amended C9: no usage data and one user message, so the
fallback estimates fill the payload. -/
theorem build_evaluation_data_nonneg_witness :
    0 ≤ (build_evaluation_data none "sid" bareResponse [userMsg "Hello"] none).input_tokens ∧
    0 ≤ (build_evaluation_data none "sid" bareResponse [userMsg "Hello"] none).output_tokens ∧
    0 ≤ (build_evaluation_data none "sid" bareResponse [userMsg "Hello"] none).total_tokens :=
  build_evaluation_data_nonneg none "sid" bareResponse [userMsg "Hello"] none
    (by decide) (by decide) (by decide)

end MonitoringService
